import Mathlib

/-! USB mass-storage class driver: request routing and function-node creation.

A shallow embedding of `drivers/usb/usbstor/usbstor.c`.

* Kernel memory is an explicit record `Mem` (request packets, device objects,
  device extensions, each addressed by a pointer), threaded through every
  routine together with a `trace` of the effects performed so far.
* The trace holds the effects of the routines of this file, in program
  order, and nothing else.  Every call that leaves the file (I/O manager,
  power manager, the handlers of the other translation units) appends one
  `Event`; what the callee answers, and what it does to memory, is a field of
  `Env`, and the theorems hold for every `Env`.
* Every store the routines of this file make to a request packet, a device
  object or a device extension both changes `Mem` and appends an
  `Event.store`, so that the order of stores and calls can be stated.
* `Mem.completions` counts, per request packet, the `IoCompleteRequest` calls
  made on it by anyone, the callees included.
-/

namespace Usbstor

/-! ## Platform types and constants -/

/-- Kernel address; `0` is `NULL`. -/
abbrev Ptr := Nat

/-- The type `NTSTATUS` is a signed 32-bit `LONG`; it is kept as the signed value. -/
abbrev NTSTATUS := Int

def STATUS_SUCCESS : NTSTATUS := 0
/-- The value `0xC000000D` read as a signed 32-bit number. -/
def STATUS_INVALID_PARAMETER : NTSTATUS := 0xC000000D - 2 ^ 32
/-- The value `0xC00002B6` read as a signed 32-bit number. -/
def STATUS_DEVICE_REMOVED : NTSTATUS := 0xC00002B6 - 2 ^ 32

/-- The macro `NT_SUCCESS(Status)` is `((NTSTATUS)(Status)) >= 0`. -/
def NT_SUCCESS (Status : NTSTATUS) : Bool := decide (0 ≤ Status)

def IO_NO_INCREMENT : Nat := 0

def FILE_DEVICE_BUS_EXTENDER : Nat := 0x2a
def FILE_AUTOGENERATED_DEVICE_NAME : Nat := 0x80
def FILE_DEVICE_SECURE_OPEN : Nat := 0x100

def DO_BUFFERED_IO : Nat := 0x4
def DO_DEVICE_INITIALIZING : Nat := 0x80
def DO_POWER_PAGABLE : Nat := 0x2000

/-- All ones in a 32-bit `ULONG`; `~x` on a `ULONG` is `ULONG_MASK ^^^ x`. -/
def ULONG_MASK : Nat := 2 ^ 32 - 1

def IRP_MJ_CREATE : Nat := 0x00
def IRP_MJ_CLOSE : Nat := 0x02
def IRP_MJ_READ : Nat := 0x03
def IRP_MJ_WRITE : Nat := 0x04
def IRP_MJ_DEVICE_CONTROL : Nat := 0x0e
def IRP_MJ_INTERNAL_DEVICE_CONTROL : Nat := 0x0f
def IRP_MJ_SCSI : Nat := IRP_MJ_INTERNAL_DEVICE_CONTROL
def IRP_MJ_POWER : Nat := 0x16
def IRP_MJ_PNP : Nat := 0x1b

/-- Code addresses that can be stored in a function-pointer slot: the
routines this driver registers, or any other address. -/
inductive Routine where
  | USBSTOR_AddDevice
  | USBSTOR_Unload
  | USBSTOR_StartIo
  | USBSTOR_TimerRoutine
  | USBSTOR_DispatchClose
  | USBSTOR_DispatchDeviceControl
  | USBSTOR_DispatchScsi
  | USBSTOR_DispatchReadWrite
  | USBSTOR_DispatchPnp
  | USBSTOR_DispatchPower
  | foreign (addr : Nat)
  deriving DecidableEq, Repr

/-! ## Memory -/

structure IO_STATUS_BLOCK where
  Status : NTSTATUS
  Information : Nat
  deriving DecidableEq, Repr

/-- A request packet: its `IoStatus` block, and everything else (stack
locations, buffers, ...) as one uninterpreted value. -/
structure IRP where
  IoStatus : IO_STATUS_BLOCK
  Body : Nat
  deriving DecidableEq, Repr

structure DEVICE_OBJECT where
  Flags : Nat
  DeviceExtension : Ptr
  deriving DecidableEq, Repr

/-- Modelled from the spec: `usbstor.h` is not among the sources.  The common
header every node extension starts with; it carries the variant tag. -/
structure USBSTOR_COMMON_DEVICE_EXTENSION where
  IsFDO : Bool
  deriving DecidableEq, Repr

/-- Modelled from the spec: `usbstor.h` is not among the sources.  The
extension as seen through `PFDO_DEVICE_EXTENSION`: the fields `usbstor.c`
names, and the remaining bytes as one uninterpreted value.  A child node's
extension is read through the same layout, as the source does by its cast. -/
structure FDO_DEVICE_EXTENSION where
  Common : USBSTOR_COMMON_DEVICE_EXTENSION
  FunctionalDeviceObject : Ptr
  PhysicalDeviceObject : Ptr
  LowerDeviceObject : Ptr
  Rest : Nat
  deriving DecidableEq, Repr

/-- What `RtlZeroMemory` leaves in an extension. -/
def FDO_DEVICE_EXTENSION.zero : FDO_DEVICE_EXTENSION :=
  { Common := { IsFDO := false }, FunctionalDeviceObject := 0,
    PhysicalDeviceObject := 0, LowerDeviceObject := 0, Rest := 0 }

structure Mem where
  irp : Ptr → IRP
  dev : Ptr → DEVICE_OBJECT
  ext : Ptr → FDO_DEVICE_EXTENSION
  /-- How often `IoCompleteRequest` has been called on the packet at an
  address, by this file or by a callee. -/
  completions : Ptr → Nat

def Mem.setIrp (m : Mem) (p : Ptr) (v : IRP) : Mem :=
  { m with irp := Function.update m.irp p v }

def Mem.setDev (m : Mem) (p : Ptr) (v : DEVICE_OBJECT) : Mem :=
  { m with dev := Function.update m.dev p v }

def Mem.setExt (m : Mem) (p : Ptr) (v : FDO_DEVICE_EXTENSION) : Mem :=
  { m with ext := Function.update m.ext p v }

def Mem.setCompletions (m : Mem) (p : Ptr) (v : Nat) : Mem :=
  { m with completions := Function.update m.completions p v }

/-! ## Effects -/

/-- A place this file stores to. -/
inductive Loc where
  | Irp_IoStatus_Status (Irp : Ptr)
  | Irp_IoStatus_Information (Irp : Ptr)
  | DeviceObject_Flags (DeviceObject : Ptr)
  | Ext_Common_IsFDO (DeviceExtension : Ptr)
  | Ext_FunctionalDeviceObject (DeviceExtension : Ptr)
  | Ext_PhysicalDeviceObject (DeviceExtension : Ptr)
  | Ext_LowerDeviceObject (DeviceExtension : Ptr)
  deriving DecidableEq, Repr

inductive Event where
  | IoCreateDevice (DriverObject : Ptr) (DeviceExtensionSize : Nat) (DeviceName : Ptr)
      (DeviceType : Nat) (DeviceCharacteristics : Nat) (Exclusive : Bool)
  | RtlZeroMemory (Destination : Ptr) (Length : Nat)
  | IoAttachDeviceToDeviceStack (SourceDevice TargetDevice : Ptr)
  | IoInitializeTimer (DeviceObject : Ptr) (TimerRoutine : Routine) (Context : Ptr)
  | IoDeleteDevice (DeviceObject : Ptr)
  | IoCompleteRequest (Irp : Ptr) (PriorityBoost : Nat)
  | PoStartNextPowerIrp (Irp : Ptr)
  | IoSkipCurrentIrpStackLocation (Irp : Ptr)
  | PoCallDriver (DeviceObject Irp : Ptr)
  | USBSTOR_HandleDeviceControl (DeviceObject Irp : Ptr)
  | USBSTOR_HandleInternalDeviceControl (DeviceObject Irp : Ptr)
  | USBSTOR_FdoHandlePnp (DeviceObject Irp : Ptr)
  | USBSTOR_PdoHandlePnp (DeviceObject Irp : Ptr)
  | store (loc : Loc) (value : Int)
  deriving DecidableEq, Repr

/-- What a callee that receives `(DeviceObject, Irp)` does: the status it
returns and the memory it leaves. -/
abbrev Handler := Ptr → Ptr → Mem → NTSTATUS × Mem

/-- The answers of everything this file calls but does not define. -/
structure Env where
  /-- The value of `sizeof(FDO_DEVICE_EXTENSION)`. -/
  sizeof_FDO_DEVICE_EXTENSION : Nat
  /-- Status, the pointer written to the out parameter, and the contents of
  the new device object. -/
  IoCreateDevice : Ptr → Nat → Ptr → Nat → Nat → Bool → NTSTATUS × Ptr × DEVICE_OBJECT
  /-- The device the source was attached to, `0` when attaching failed. -/
  IoAttachDeviceToDeviceStack : Ptr → Ptr → Ptr
  /-- The header macro that advances the packet to the next stack location. -/
  IoSkipCurrentIrpStackLocation : IRP → IRP
  PoCallDriver : Handler
  USBSTOR_HandleDeviceControl : Handler
  USBSTOR_HandleInternalDeviceControl : Handler
  USBSTOR_FdoHandlePnp : Handler
  USBSTOR_PdoHandlePnp : Handler

structure KState where
  mem : Mem
  trace : List Event

def KState.log (s : KState) (e : Event) : KState :=
  { s with trace := s.trace ++ [e] }

/-- Run a callee that receives `(DeviceObject, Irp)`: the call is recorded
and the callee acts on memory. -/
def callHandler (h : Handler) (e : Event) (DeviceObject Irp : Ptr) (s : KState) :
    NTSTATUS × KState :=
  let r := h DeviceObject Irp s.mem
  (r.1, { mem := r.2, trace := s.trace ++ [e] })

/-! ### Stores -/

def store_Irp_IoStatus_Status (Irp : Ptr) (v : NTSTATUS) (s : KState) : KState :=
  { mem := s.mem.setIrp Irp
      ({ s.mem.irp Irp with IoStatus := { (s.mem.irp Irp).IoStatus with Status := v } }),
    trace := s.trace ++ [Event.store (Loc.Irp_IoStatus_Status Irp) v] }

def store_Irp_IoStatus_Information (Irp : Ptr) (v : Nat) (s : KState) : KState :=
  { mem := s.mem.setIrp Irp
      ({ s.mem.irp Irp with IoStatus := { (s.mem.irp Irp).IoStatus with Information := v } }),
    trace := s.trace ++ [Event.store (Loc.Irp_IoStatus_Information Irp) v] }

def store_DeviceObject_Flags (DeviceObject : Ptr) (v : Nat) (s : KState) : KState :=
  { mem := s.mem.setDev DeviceObject
      ({ s.mem.dev DeviceObject with Flags := v }),
    trace := s.trace ++ [Event.store (Loc.DeviceObject_Flags DeviceObject) v] }

def store_Ext_Common_IsFDO (DeviceExtension : Ptr) (v : Bool) (s : KState) : KState :=
  { mem := s.mem.setExt DeviceExtension
      ({ s.mem.ext DeviceExtension with Common := { IsFDO := v } }),
    trace := s.trace ++ [Event.store (Loc.Ext_Common_IsFDO DeviceExtension) (if v then 1 else 0)] }

def store_Ext_FunctionalDeviceObject (DeviceExtension : Ptr) (v : Ptr) (s : KState) : KState :=
  { mem := s.mem.setExt DeviceExtension
      ({ s.mem.ext DeviceExtension with FunctionalDeviceObject := v }),
    trace := s.trace ++ [Event.store (Loc.Ext_FunctionalDeviceObject DeviceExtension) v] }

def store_Ext_PhysicalDeviceObject (DeviceExtension : Ptr) (v : Ptr) (s : KState) : KState :=
  { mem := s.mem.setExt DeviceExtension
      ({ s.mem.ext DeviceExtension with PhysicalDeviceObject := v }),
    trace := s.trace ++ [Event.store (Loc.Ext_PhysicalDeviceObject DeviceExtension) v] }

def store_Ext_LowerDeviceObject (DeviceExtension : Ptr) (v : Ptr) (s : KState) : KState :=
  { mem := s.mem.setExt DeviceExtension
      ({ s.mem.ext DeviceExtension with LowerDeviceObject := v }),
    trace := s.trace ++ [Event.store (Loc.Ext_LowerDeviceObject DeviceExtension) v] }

/-! ### Calls into the kernel -/

/-- The call is recorded; on success the new object is in memory at the
returned pointer. -/
def IoCreateDevice (env : Env) (DriverObject : Ptr) (DeviceExtensionSize : Nat)
    (DeviceName : Ptr) (DeviceType DeviceCharacteristics : Nat) (Exclusive : Bool)
    (s : KState) : NTSTATUS × Ptr × KState :=
  let r := env.IoCreateDevice DriverObject DeviceExtensionSize DeviceName DeviceType
    DeviceCharacteristics Exclusive
  let s := s.log (Event.IoCreateDevice DriverObject DeviceExtensionSize DeviceName DeviceType
    DeviceCharacteristics Exclusive)
  if NT_SUCCESS r.1 then
    (r.1, r.2.1, { s with mem := s.mem.setDev r.2.1 r.2.2 })
  else
    (r.1, r.2.1, s)

def RtlZeroMemory (Destination : Ptr) (Length : Nat) (s : KState) : KState :=
  { mem := s.mem.setExt Destination FDO_DEVICE_EXTENSION.zero,
    trace := s.trace ++ [Event.RtlZeroMemory Destination Length] }

def IoAttachDeviceToDeviceStack (env : Env) (SourceDevice TargetDevice : Ptr) (s : KState) :
    Ptr × KState :=
  (env.IoAttachDeviceToDeviceStack SourceDevice TargetDevice,
    s.log (Event.IoAttachDeviceToDeviceStack SourceDevice TargetDevice))

def IoInitializeTimer (DeviceObject : Ptr) (TimerRoutine : Routine) (Context : Ptr)
    (s : KState) : KState :=
  s.log (Event.IoInitializeTimer DeviceObject TimerRoutine Context)

def IoDeleteDevice (DeviceObject : Ptr) (s : KState) : KState :=
  s.log (Event.IoDeleteDevice DeviceObject)

def IoCompleteRequest (Irp : Ptr) (PriorityBoost : Nat) (s : KState) : KState :=
  { mem := s.mem.setCompletions Irp (s.mem.completions Irp + 1),
    trace := s.trace ++ [Event.IoCompleteRequest Irp PriorityBoost] }

def PoStartNextPowerIrp (Irp : Ptr) (s : KState) : KState :=
  s.log (Event.PoStartNextPowerIrp Irp)

def IoSkipCurrentIrpStackLocation (env : Env) (Irp : Ptr) (s : KState) : KState :=
  { mem := s.mem.setIrp Irp (env.IoSkipCurrentIrpStackLocation (s.mem.irp Irp)),
    trace := s.trace ++ [Event.IoSkipCurrentIrpStackLocation Irp] }

def PoCallDriver (env : Env) (DeviceObject Irp : Ptr) (s : KState) : NTSTATUS × KState :=
  callHandler env.PoCallDriver (Event.PoCallDriver DeviceObject Irp) DeviceObject Irp s

/-! ### Handlers of the other translation units -/

def USBSTOR_HandleDeviceControl (env : Env) (DeviceObject Irp : Ptr) (s : KState) :
    NTSTATUS × KState :=
  callHandler env.USBSTOR_HandleDeviceControl
    (Event.USBSTOR_HandleDeviceControl DeviceObject Irp) DeviceObject Irp s

def USBSTOR_HandleInternalDeviceControl (env : Env) (DeviceObject Irp : Ptr) (s : KState) :
    NTSTATUS × KState :=
  callHandler env.USBSTOR_HandleInternalDeviceControl
    (Event.USBSTOR_HandleInternalDeviceControl DeviceObject Irp) DeviceObject Irp s

def USBSTOR_FdoHandlePnp (env : Env) (DeviceObject Irp : Ptr) (s : KState) :
    NTSTATUS × KState :=
  callHandler env.USBSTOR_FdoHandlePnp
    (Event.USBSTOR_FdoHandlePnp DeviceObject Irp) DeviceObject Irp s

def USBSTOR_PdoHandlePnp (env : Env) (DeviceObject Irp : Ptr) (s : KState) :
    NTSTATUS × KState :=
  callHandler env.USBSTOR_PdoHandlePnp
    (Event.USBSTOR_PdoHandlePnp DeviceObject Irp) DeviceObject Irp s

/-! ## The routines of `usbstor.c` -/

def USBSTOR_AddDevice (env : Env) (DriverObject PhysicalDeviceObject : Ptr) (s : KState) :
    NTSTATUS × KState :=
  -- lets create the device
  let r := IoCreateDevice env DriverObject env.sizeof_FDO_DEVICE_EXTENSION 0
    FILE_DEVICE_BUS_EXTENDER (FILE_AUTOGENERATED_DEVICE_NAME ||| FILE_DEVICE_SECURE_OPEN)
    false s
  let Status := r.1
  let DeviceObject := r.2.1
  let s := r.2.2
  -- check for success
  if !NT_SUCCESS Status then
    (Status, s)
  else
    -- get device extension (the `ASSERT` on it has no effect on the result)
    let DeviceExtension := (s.mem.dev DeviceObject).DeviceExtension
    -- zero device extension
    let s := RtlZeroMemory DeviceExtension env.sizeof_FDO_DEVICE_EXTENSION s
    -- initialize device extension
    let s := store_Ext_Common_IsFDO DeviceExtension true s
    let s := store_Ext_FunctionalDeviceObject DeviceExtension DeviceObject s
    let s := store_Ext_PhysicalDeviceObject DeviceExtension PhysicalDeviceObject s
    let a := IoAttachDeviceToDeviceStack env DeviceObject PhysicalDeviceObject s
    let s := store_Ext_LowerDeviceObject DeviceExtension a.1 a.2
    -- init timer
    let s := IoInitializeTimer DeviceObject Routine.USBSTOR_TimerRoutine DeviceExtension s
    -- did attaching fail
    if (s.mem.ext DeviceExtension).LowerDeviceObject = 0 then
      -- device removed
      let s := IoDeleteDevice DeviceObject s
      (STATUS_DEVICE_REMOVED, s)
    else
      -- set device flags
      let s := store_DeviceObject_Flags DeviceObject
        ((s.mem.dev DeviceObject).Flags ||| ( DO_BUFFERED_IO ||| DO_POWER_PAGABLE)) s
      -- device is initialized
      let s := store_DeviceObject_Flags DeviceObject
        ((s.mem.dev DeviceObject).Flags &&& (ULONG_MASK ^^^ DO_DEVICE_INITIALIZING)) s
      -- done
      (STATUS_SUCCESS, s)

def USBSTOR_Unload (_DriverObject : Ptr) (s : KState) : KState :=
  -- no-op
  s

def USBSTOR_DispatchClose (_DeviceObject Irp : Ptr) (s : KState) : NTSTATUS × KState :=
  -- function always succeeds ;)
  let s := store_Irp_IoStatus_Information Irp 0 s
  let s := store_Irp_IoStatus_Status Irp STATUS_SUCCESS s
  let s := IoCompleteRequest Irp IO_NO_INCREMENT s
  (STATUS_SUCCESS, s)

def USBSTOR_DispatchDeviceControl (env : Env) (DeviceObject Irp : Ptr) (s : KState) :
    NTSTATUS × KState :=
  -- handle requests
  let r := USBSTOR_HandleDeviceControl env DeviceObject Irp s
  let Status := r.1
  -- complete request
  let s := store_Irp_IoStatus_Status Irp Status r.2
  let s := IoCompleteRequest Irp IO_NO_INCREMENT s
  -- done
  (Status, s)

def USBSTOR_DispatchScsi (env : Env) (DeviceObject Irp : Ptr) (s : KState) :
    NTSTATUS × KState :=
  -- handle requests
  USBSTOR_HandleInternalDeviceControl env DeviceObject Irp s

def USBSTOR_DispatchReadWrite (_DeviceObject Irp : Ptr) (s : KState) : NTSTATUS × KState :=
  -- read write ioctl is not supported
  let s := store_Irp_IoStatus_Information Irp 0 s
  let s := store_Irp_IoStatus_Status Irp STATUS_INVALID_PARAMETER s
  let s := IoCompleteRequest Irp IO_NO_INCREMENT s
  (STATUS_INVALID_PARAMETER, s)

def USBSTOR_DispatchPnp (env : Env) (DeviceObject Irp : Ptr) (s : KState) :
    NTSTATUS × KState :=
  -- get common device extension
  let DeviceExtension := (s.mem.dev DeviceObject).DeviceExtension
  -- is it for the FDO
  if (s.mem.ext DeviceExtension).Common.IsFDO then
    -- dispatch pnp request to fdo pnp handler
    USBSTOR_FdoHandlePnp env DeviceObject Irp s
  else
    -- dispatch request to pdo pnp handler
    USBSTOR_PdoHandlePnp env DeviceObject Irp s

def USBSTOR_DispatchPower (env : Env) (DeviceObject Irp : Ptr) (s : KState) :
    NTSTATUS × KState :=
  -- get common device extension
  let DeviceExtension := (s.mem.dev DeviceObject).DeviceExtension
  if (s.mem.ext DeviceExtension).Common.IsFDO then
    let s := PoStartNextPowerIrp Irp s
    let s := IoSkipCurrentIrpStackLocation env Irp s
    PoCallDriver env (s.mem.ext DeviceExtension).LowerDeviceObject Irp s
  else
    let s := PoStartNextPowerIrp Irp s
    let s := store_Irp_IoStatus_Status Irp STATUS_SUCCESS s
    let s := IoCompleteRequest Irp IO_NO_INCREMENT s
    (STATUS_SUCCESS, s)

/-- The store `DriverObject->MajorFunction[mj] = f`. -/
def setMajorFunction (tbl : Nat → Routine) (mj : Nat) (f : Routine) : Nat → Routine :=
  Function.update tbl mj f

/-- The fields of the driver object `DriverEntry` stores to;
`AddDevice` is `DriverObject->DriverExtension->AddDevice`. -/
structure DRIVER_OBJECT where
  DriverUnload : Routine
  AddDevice : Routine
  DriverStartIo : Routine
  MajorFunction : Nat → Routine

def DriverEntry (DriverObject : DRIVER_OBJECT) (_RegPath : Ptr) : NTSTATUS × DRIVER_OBJECT :=
  -- driver unload routine
  let d := { DriverObject with DriverUnload := Routine.USBSTOR_Unload }
  -- add device function
  let d := { d with AddDevice := Routine.USBSTOR_AddDevice }
  -- driver start i/o routine
  let d := { d with DriverStartIo := Routine.USBSTOR_StartIo }
  -- create / close
  let d := { d with
    MajorFunction := setMajorFunction d.MajorFunction IRP_MJ_CREATE Routine.USBSTOR_DispatchClose }
  let d := { d with
    MajorFunction := setMajorFunction d.MajorFunction IRP_MJ_CLOSE Routine.USBSTOR_DispatchClose }
  -- scsi pass through requests
  let d := { d with
    MajorFunction := setMajorFunction d.MajorFunction IRP_MJ_DEVICE_CONTROL Routine.USBSTOR_DispatchDeviceControl }
  -- irp dispatch read / write
  let d := { d with
    MajorFunction := setMajorFunction d.MajorFunction IRP_MJ_READ Routine.USBSTOR_DispatchReadWrite }
  let d := { d with
    MajorFunction := setMajorFunction d.MajorFunction IRP_MJ_WRITE Routine.USBSTOR_DispatchReadWrite }
  -- scsi queue ioctl
  let d := { d with
    MajorFunction := setMajorFunction d.MajorFunction IRP_MJ_SCSI Routine.USBSTOR_DispatchScsi }
  -- pnp processing
  let d := { d with
    MajorFunction := setMajorFunction d.MajorFunction IRP_MJ_PNP Routine.USBSTOR_DispatchPnp }
  -- power processing
  let d := { d with
    MajorFunction := setMajorFunction d.MajorFunction IRP_MJ_POWER Routine.USBSTOR_DispatchPower }
  (STATUS_SUCCESS, d)

/-- Calling through a function-pointer slot that holds a dispatch routine of
this file; any other address is outside the model. -/
def callDispatch (env : Env) (f : Routine) (DeviceObject Irp : Ptr) (s : KState) :
    Option (NTSTATUS × KState) :=
  match f with
  | Routine.USBSTOR_DispatchClose => some (USBSTOR_DispatchClose DeviceObject Irp s)
  | Routine.USBSTOR_DispatchDeviceControl =>
      some (USBSTOR_DispatchDeviceControl env DeviceObject Irp s)
  | Routine.USBSTOR_DispatchScsi => some (USBSTOR_DispatchScsi env DeviceObject Irp s)
  | Routine.USBSTOR_DispatchReadWrite => some (USBSTOR_DispatchReadWrite DeviceObject Irp s)
  | Routine.USBSTOR_DispatchPnp => some (USBSTOR_DispatchPnp env DeviceObject Irp s)
  | Routine.USBSTOR_DispatchPower => some (USBSTOR_DispatchPower env DeviceObject Irp s)
  | _ => none

/-- How the I/O manager delivers a request of major function `mj` to a device
of this driver: through `DriverObject->MajorFunction[mj]`. -/
def dispatchIrp (env : Env) (DriverObject : DRIVER_OBJECT) (mj : Nat)
    (DeviceObject Irp : Ptr) (s : KState) : Option (NTSTATUS × KState) :=
  callDispatch env (DriverObject.MajorFunction mj) DeviceObject Irp s

/-! ## Sample inputs -/

def STATUS_PENDING : NTSTATUS := 0x103

/-- An environment in which device creation and attaching succeed, the
lower driver answers `STATUS_PENDING` and every handler succeeds without
touching memory. -/
def sampleEnv : Env where
  sizeof_FDO_DEVICE_EXTENSION := 64
  IoCreateDevice := fun _ _ _ _ _ _ =>
    (STATUS_SUCCESS, 100, { Flags := DO_DEVICE_INITIALIZING, DeviceExtension := 200 })
  IoAttachDeviceToDeviceStack := fun _ TargetDevice => TargetDevice
  IoSkipCurrentIrpStackLocation := fun i => { i with Body := i.Body + 1 }
  PoCallDriver := fun _ _ m => (STATUS_PENDING, m)
  USBSTOR_HandleDeviceControl := fun _ _ m => (STATUS_SUCCESS, m)
  USBSTOR_HandleInternalDeviceControl := fun _ _ m => (STATUS_PENDING, m)
  USBSTOR_FdoHandlePnp := fun _ _ m => (STATUS_SUCCESS, m)
  USBSTOR_PdoHandlePnp := fun _ _ m => (STATUS_PENDING, m)

/-- As `sampleEnv`, but attaching to the device stack fails. -/
def sampleEnvAttachFails : Env :=
  { sampleEnv with IoAttachDeviceToDeviceStack := fun _ _ => 0 }

/-- A memory in which every device object has its extension at address 200
and every extension carries the given variant tag and lower device 300. -/
def sampleMem (IsFDO : Bool) : Mem where
  irp := fun _ => { IoStatus := { Status := STATUS_PENDING, Information := 7 }, Body := 0 }
  dev := fun _ => { Flags := 0, DeviceExtension := 200 }
  ext := fun _ => { Common := { IsFDO := IsFDO }, FunctionalDeviceObject := 100,
                    PhysicalDeviceObject := 50, LowerDeviceObject := 300, Rest := 0 }
  completions := fun _ => 0

def sampleState (IsFDO : Bool) : KState :=
  { mem := sampleMem IsFDO, trace := [] }

/-! ## Observations on traces -/

def Event.isIoCompleteRequest : Event → Bool
  | Event.IoCompleteRequest _ _ => true
  | _ => false

def Event.isPoStartNextPowerIrp : Event → Bool
  | Event.PoStartNextPowerIrp _ => true
  | _ => false

def Event.isPoCallDriver : Event → Bool
  | Event.PoCallDriver _ _ => true
  | _ => false

def Event.isIoInitializeTimer : Event → Bool
  | Event.IoInitializeTimer _ _ _ => true
  | _ => false

def Event.isIoDeleteDevice : Event → Bool
  | Event.IoDeleteDevice _ => true
  | _ => false

def Event.isFlagsStore : Event → Bool
  | Event.store (Loc.DeviceObject_Flags _) _ => true
  | _ => false

def Event.isStore : Event → Bool
  | Event.store _ _ => true
  | _ => false

/-- The same state, with the `LowerDeviceObject` slot of the extension at
`DeviceExtension` overwritten by `L`. -/
def KState.withLowerDeviceObject (s : KState) (DeviceExtension L : Ptr) : KState :=
  { mem := s.mem.setExt DeviceExtension
      ({ s.mem.ext DeviceExtension with LowerDeviceObject := L }),
    trace := s.trace }

/-- The effects performed between state `s0` and a later state `s`. -/
def KState.since (s s0 : KState) : List Event :=
  s.trace.drop s0.trace.length

/-! ## Lemmas on the memory and trace primitives -/

theorem and_single_bit_eq (x k : Nat) (h : x.testBit k = true) : x &&& 2 ^ k = 2 ^ k := by
  apply Nat.eq_of_testBit_eq
  intro i
  rw [Nat.testBit_and, Nat.testBit_two_pow]
  by_cases hi : k = i
  · subst hi; simp [h]
  · simp [hi]

theorem and_single_bit_zero (x k : Nat) (h : x.testBit k = false) : x &&& 2 ^ k = 0 := by
  apply Nat.eq_of_testBit_eq
  intro i
  rw [Nat.testBit_and, Nat.testBit_two_pow]
  by_cases hi : k = i
  · subst hi; simp [h]
  · simp [hi]

/-- The two flag updates at the end of `USBSTOR_AddDevice` leave
`DO_BUFFERED_IO` and `DO_POWER_PAGABLE` set and `DO_DEVICE_INITIALIZING`
clear, whatever the flags were. -/
theorem ready_flags (f : Nat) :
    ((f ||| ( DO_BUFFERED_IO ||| DO_POWER_PAGABLE)) &&& (ULONG_MASK ^^^ DO_DEVICE_INITIALIZING))
        &&& DO_BUFFERED_IO = DO_BUFFERED_IO ∧
    ((f ||| ( DO_BUFFERED_IO ||| DO_POWER_PAGABLE)) &&& (ULONG_MASK ^^^ DO_DEVICE_INITIALIZING))
        &&& DO_POWER_PAGABLE = DO_POWER_PAGABLE ∧
    ((f ||| ( DO_BUFFERED_IO ||| DO_POWER_PAGABLE)) &&& (ULONG_MASK ^^^ DO_DEVICE_INITIALIZING))
        &&& DO_DEVICE_INITIALIZING = 0 := by
  have h1 : Nat.testBit 8196 2 = true := by decide
  have h2 : Nat.testBit 4294967167 2 = true := by decide
  have h3 : Nat.testBit 8196 13 = true := by decide
  have h4 : Nat.testBit 4294967167 13 = true := by decide
  have h5 : Nat.testBit 4294967167 7 = false := by decide
  have a := and_single_bit_eq ((f ||| (0x4 ||| 0x2000)) &&& ((2 ^ 32 - 1) ^^^ 0x80)) 2
    (by simp [Nat.testBit_and, Nat.testBit_or, h1, h2])
  have b := and_single_bit_eq ((f ||| (0x4 ||| 0x2000)) &&& ((2 ^ 32 - 1) ^^^ 0x80)) 13
    (by simp [Nat.testBit_and, Nat.testBit_or, h3, h4])
  have c := and_single_bit_zero ((f ||| (0x4 ||| 0x2000)) &&& ((2 ^ 32 - 1) ^^^ 0x80)) 7
    (by simp [Nat.testBit_and, Nat.testBit_or, h5])
  simp only [ DO_BUFFERED_IO, DO_POWER_PAGABLE, DO_DEVICE_INITIALIZING, ULONG_MASK]
  exact ⟨by simpa using a, by simpa using b, by simpa using c⟩

/-! ## Create, close, read, write -/

/-- C7: the routine `DriverEntry` installs for `IRP_MJ_CREATE` and for
`IRP_MJ_CLOSE` is `USBSTOR_DispatchClose`; on every device object, request
and state it stores `Information = 0` and `Status = STATUS_SUCCESS`, calls
`IoCompleteRequest(Irp, IO_NO_INCREMENT)` exactly once, as its last effect,
and returns `STATUS_SUCCESS`; status, stored `IoStatus` and performed effects
are the same for any other device object and any other memory. -/
theorem DispatchClose_completes_with_success (env : Env) (DriverObject : DRIVER_OBJECT)
    (RegPath DeviceObject Irp : Ptr) (s : KState) :
    dispatchIrp env (DriverEntry DriverObject RegPath).2 IRP_MJ_CREATE DeviceObject Irp s
      = some (USBSTOR_DispatchClose DeviceObject Irp s) ∧
    dispatchIrp env (DriverEntry DriverObject RegPath).2 IRP_MJ_CLOSE DeviceObject Irp s
      = some (USBSTOR_DispatchClose DeviceObject Irp s) ∧
    (USBSTOR_DispatchClose DeviceObject Irp s).1 = STATUS_SUCCESS ∧
    ((USBSTOR_DispatchClose DeviceObject Irp s).2.mem.irp Irp).IoStatus
      = { Status := STATUS_SUCCESS, Information := 0 } ∧
    (USBSTOR_DispatchClose DeviceObject Irp s).2.trace = s.trace ++
      [Event.store (Loc.Irp_IoStatus_Information Irp) 0,
       Event.store (Loc.Irp_IoStatus_Status Irp) STATUS_SUCCESS,
       Event.IoCompleteRequest Irp IO_NO_INCREMENT] ∧
    ((USBSTOR_DispatchClose DeviceObject Irp s).2.since s).countP Event.isIoCompleteRequest = 1 ∧
    (USBSTOR_DispatchClose DeviceObject Irp s).2.mem.completions Irp
      = s.mem.completions Irp + 1 ∧
    (∀ (DeviceObject2 : Ptr) (s2 : KState),
      (USBSTOR_DispatchClose DeviceObject2 Irp s2).1
        = (USBSTOR_DispatchClose DeviceObject Irp s).1 ∧
      ((USBSTOR_DispatchClose DeviceObject2 Irp s2).2.mem.irp Irp).IoStatus
        = ((USBSTOR_DispatchClose DeviceObject Irp s).2.mem.irp Irp).IoStatus ∧
      (USBSTOR_DispatchClose DeviceObject2 Irp s2).2.since s2
        = (USBSTOR_DispatchClose DeviceObject Irp s).2.since s) := by
  refine ⟨rfl, rfl, rfl, ?_, ?_, ?_, ?_, ?_⟩
  · simp [USBSTOR_DispatchClose, IoCompleteRequest, store_Irp_IoStatus_Status,
      store_Irp_IoStatus_Information, Mem.setIrp, Mem.setCompletions]
  · simp [USBSTOR_DispatchClose, IoCompleteRequest, store_Irp_IoStatus_Status,
      store_Irp_IoStatus_Information]
  · simp [USBSTOR_DispatchClose, IoCompleteRequest, store_Irp_IoStatus_Status,
      store_Irp_IoStatus_Information, KState.since, Event.isIoCompleteRequest]
  · simp [USBSTOR_DispatchClose, IoCompleteRequest, store_Irp_IoStatus_Status,
      store_Irp_IoStatus_Information, Mem.setIrp, Mem.setCompletions]
  · intro DeviceObject2 s2
    simp [USBSTOR_DispatchClose, IoCompleteRequest, store_Irp_IoStatus_Status,
      store_Irp_IoStatus_Information, Mem.setIrp, Mem.setCompletions, KState.since]

/-- C8: the routine `DriverEntry` installs for `IRP_MJ_READ` and for
`IRP_MJ_WRITE` is `USBSTOR_DispatchReadWrite`; on every device object,
request and state it stores `Information = 0` and
`Status = STATUS_INVALID_PARAMETER`, calls
`IoCompleteRequest(Irp, IO_NO_INCREMENT)` exactly once, as its last effect,
and returns `STATUS_INVALID_PARAMETER`, a failure status; it performs no call
besides that completion, and status, stored `IoStatus` and performed effects
are the same for any other environment, device object and memory. -/
theorem DispatchReadWrite_completes_with_invalid_parameter (env : Env)
    (DriverObject : DRIVER_OBJECT) (RegPath DeviceObject Irp : Ptr) (s : KState) :
    dispatchIrp env (DriverEntry DriverObject RegPath).2 IRP_MJ_READ DeviceObject Irp s
      = some (USBSTOR_DispatchReadWrite DeviceObject Irp s) ∧
    dispatchIrp env (DriverEntry DriverObject RegPath).2 IRP_MJ_WRITE DeviceObject Irp s
      = some (USBSTOR_DispatchReadWrite DeviceObject Irp s) ∧
    (USBSTOR_DispatchReadWrite DeviceObject Irp s).1 = STATUS_INVALID_PARAMETER ∧
    NT_SUCCESS (USBSTOR_DispatchReadWrite DeviceObject Irp s).1 = false ∧
    ((USBSTOR_DispatchReadWrite DeviceObject Irp s).2.mem.irp Irp).IoStatus
      = { Status := STATUS_INVALID_PARAMETER, Information := 0 } ∧
    (USBSTOR_DispatchReadWrite DeviceObject Irp s).2.trace = s.trace ++
      [Event.store (Loc.Irp_IoStatus_Information Irp) 0,
       Event.store (Loc.Irp_IoStatus_Status Irp) STATUS_INVALID_PARAMETER,
       Event.IoCompleteRequest Irp IO_NO_INCREMENT] ∧
    ((USBSTOR_DispatchReadWrite DeviceObject Irp s).2.since s).countP
      Event.isIoCompleteRequest = 1 ∧
    (USBSTOR_DispatchReadWrite DeviceObject Irp s).2.mem.completions Irp
      = s.mem.completions Irp + 1 ∧
    (∀ (env2 : Env) (DeviceObject2 : Ptr) (s2 : KState),
      ∃ r2, dispatchIrp env2 (DriverEntry DriverObject RegPath).2 IRP_MJ_READ
          DeviceObject2 Irp s2 = some r2 ∧
        dispatchIrp env2 (DriverEntry DriverObject RegPath).2 IRP_MJ_WRITE
          DeviceObject2 Irp s2 = some r2 ∧
        r2.1 = (USBSTOR_DispatchReadWrite DeviceObject Irp s).1 ∧
        (r2.2.mem.irp Irp).IoStatus
          = ((USBSTOR_DispatchReadWrite DeviceObject Irp s).2.mem.irp Irp).IoStatus ∧
        r2.2.since s2 = (USBSTOR_DispatchReadWrite DeviceObject Irp s).2.since s) := by
  refine ⟨rfl, rfl, rfl, by simp [USBSTOR_DispatchReadWrite, NT_SUCCESS, STATUS_INVALID_PARAMETER], ?_, ?_, ?_, ?_, ?_⟩
  · simp [USBSTOR_DispatchReadWrite, IoCompleteRequest, store_Irp_IoStatus_Status,
      store_Irp_IoStatus_Information, Mem.setIrp, Mem.setCompletions]
  · simp [USBSTOR_DispatchReadWrite, IoCompleteRequest, store_Irp_IoStatus_Status,
      store_Irp_IoStatus_Information]
  · simp [USBSTOR_DispatchReadWrite, IoCompleteRequest, store_Irp_IoStatus_Status,
      store_Irp_IoStatus_Information, KState.since, Event.isIoCompleteRequest]
  · simp [USBSTOR_DispatchReadWrite, IoCompleteRequest, store_Irp_IoStatus_Status,
      store_Irp_IoStatus_Information, Mem.setIrp, Mem.setCompletions]
  · intro env2 DeviceObject2 s2
    refine ⟨USBSTOR_DispatchReadWrite DeviceObject2 Irp s2, rfl, rfl, ?_⟩
    simp [USBSTOR_DispatchReadWrite, IoCompleteRequest, store_Irp_IoStatus_Status,
      store_Irp_IoStatus_Information, Mem.setIrp, Mem.setCompletions, KState.since]

/-! ## Device control and SCSI -/

/-- C9: on every device object, request and state,
`USBSTOR_DispatchDeviceControl` first calls `USBSTOR_HandleDeviceControl`
once, with the device object and request it received and on the memory it
received; then it stores the returned status `S` to `IoStatus.Status`, calls
`IoCompleteRequest(Irp, IO_NO_INCREMENT)` once and returns `S`, whatever `S`
is.  It stores nothing else: `IoStatus.Information` and the rest of the
packet are as the handler left them. -/
theorem DispatchDeviceControl_completes_with_handler_status (env : Env)
    (DeviceObject Irp : Ptr) (s : KState) :
    (USBSTOR_DispatchDeviceControl env DeviceObject Irp s).1
      = (env.USBSTOR_HandleDeviceControl DeviceObject Irp s.mem).1 ∧
    (USBSTOR_DispatchDeviceControl env DeviceObject Irp s).2.trace = s.trace ++
      [Event.USBSTOR_HandleDeviceControl DeviceObject Irp,
       Event.store (Loc.Irp_IoStatus_Status Irp)
         (env.USBSTOR_HandleDeviceControl DeviceObject Irp s.mem).1,
       Event.IoCompleteRequest Irp IO_NO_INCREMENT] ∧
    ((USBSTOR_DispatchDeviceControl env DeviceObject Irp s).2.mem.irp Irp).IoStatus.Status
      = (env.USBSTOR_HandleDeviceControl DeviceObject Irp s.mem).1 ∧
    ((USBSTOR_DispatchDeviceControl env DeviceObject Irp s).2.mem.irp Irp).IoStatus.Information
      = ((env.USBSTOR_HandleDeviceControl DeviceObject Irp s.mem).2.irp Irp).IoStatus.Information ∧
    ((USBSTOR_DispatchDeviceControl env DeviceObject Irp s).2.mem.irp Irp).Body
      = ((env.USBSTOR_HandleDeviceControl DeviceObject Irp s.mem).2.irp Irp).Body ∧
    ((USBSTOR_DispatchDeviceControl env DeviceObject Irp s).2.since s).countP
      Event.isIoCompleteRequest = 1 ∧
    ((USBSTOR_DispatchDeviceControl env DeviceObject Irp s).2.since s).countP
      Event.isStore = 1 ∧
    (USBSTOR_DispatchDeviceControl env DeviceObject Irp s).2.mem.completions Irp
      = (env.USBSTOR_HandleDeviceControl DeviceObject Irp s.mem).2.completions Irp + 1 := by
  refine ⟨rfl, ?_, ?_, ?_, ?_, ?_, ?_, ?_⟩
  · simp [USBSTOR_DispatchDeviceControl, USBSTOR_HandleDeviceControl, callHandler,
      IoCompleteRequest, store_Irp_IoStatus_Status]
  · simp [USBSTOR_DispatchDeviceControl, USBSTOR_HandleDeviceControl, callHandler,
      IoCompleteRequest, store_Irp_IoStatus_Status, Mem.setIrp, Mem.setCompletions]
  · simp [USBSTOR_DispatchDeviceControl, USBSTOR_HandleDeviceControl, callHandler,
      IoCompleteRequest, store_Irp_IoStatus_Status, Mem.setIrp, Mem.setCompletions]
  · simp [USBSTOR_DispatchDeviceControl, USBSTOR_HandleDeviceControl, callHandler,
      IoCompleteRequest, store_Irp_IoStatus_Status, Mem.setIrp, Mem.setCompletions]
  · simp [USBSTOR_DispatchDeviceControl, USBSTOR_HandleDeviceControl, callHandler,
      IoCompleteRequest, store_Irp_IoStatus_Status, KState.since, Event.isIoCompleteRequest]
  · simp [USBSTOR_DispatchDeviceControl, USBSTOR_HandleDeviceControl, callHandler,
      IoCompleteRequest, store_Irp_IoStatus_Status, KState.since, Event.isStore]
  · simp [USBSTOR_DispatchDeviceControl, USBSTOR_HandleDeviceControl, callHandler,
      IoCompleteRequest, store_Irp_IoStatus_Status, Mem.setIrp, Mem.setCompletions]

/-- C10: the routine `DriverEntry` installs for `IRP_MJ_SCSI` is
`USBSTOR_DispatchScsi`; on every device object, request and state its only
effect is one call of `USBSTOR_HandleInternalDeviceControl` with the device
object and request it received, on the memory it received; it returns the
status of that call, makes no `IoCompleteRequest` call and no store, and
leaves memory, the completion count of the request included, exactly as the
handler left it. -/
theorem DispatchScsi_delegates (env : Env) (DriverObject : DRIVER_OBJECT)
    (RegPath DeviceObject Irp : Ptr) (s : KState) :
    dispatchIrp env (DriverEntry DriverObject RegPath).2 IRP_MJ_SCSI DeviceObject Irp s
      = some (USBSTOR_DispatchScsi env DeviceObject Irp s) ∧
    (USBSTOR_DispatchScsi env DeviceObject Irp s).1
      = (env.USBSTOR_HandleInternalDeviceControl DeviceObject Irp s.mem).1 ∧
    (USBSTOR_DispatchScsi env DeviceObject Irp s).2.trace
      = s.trace ++ [Event.USBSTOR_HandleInternalDeviceControl DeviceObject Irp] ∧
    ((USBSTOR_DispatchScsi env DeviceObject Irp s).2.since s).countP
      Event.isIoCompleteRequest = 0 ∧
    ((USBSTOR_DispatchScsi env DeviceObject Irp s).2.since s).countP Event.isStore = 0 ∧
    (USBSTOR_DispatchScsi env DeviceObject Irp s).2.mem
      = (env.USBSTOR_HandleInternalDeviceControl DeviceObject Irp s.mem).2 ∧
    (USBSTOR_DispatchScsi env DeviceObject Irp s).2.mem.completions Irp
      = (env.USBSTOR_HandleInternalDeviceControl DeviceObject Irp s.mem).2.completions Irp := by
  refine ⟨rfl, rfl, rfl, ?_, ?_, rfl, rfl⟩
  · simp [USBSTOR_DispatchScsi, USBSTOR_HandleInternalDeviceControl, callHandler,
      KState.since, Event.isIoCompleteRequest]
  · simp [USBSTOR_DispatchScsi, USBSTOR_HandleInternalDeviceControl, callHandler,
      KState.since, Event.isStore]

/-! ## Plug and Play -/

/-- C3: on every device object, request and state, the only effect of
`USBSTOR_DispatchPnp` is one handler call with the device object and request
it received, on the memory it received: `USBSTOR_FdoHandlePnp` when the
node's `IsFDO` tag is true, `USBSTOR_PdoHandlePnp` when it is false.  A call
of `USBSTOR_FdoHandlePnp` is among its effects if and only if the tag is
true, a call of `USBSTOR_PdoHandlePnp` if and only if the tag is false.  It
makes no `IoCompleteRequest` call and no store, returns the status of the
handler it called and leaves memory as that handler left it. -/
theorem DispatchPnp_routes_by_variant (env : Env) (DeviceObject Irp : Ptr) (s : KState) :
    USBSTOR_DispatchPnp env DeviceObject Irp s =
      (if (s.mem.ext (s.mem.dev DeviceObject).DeviceExtension).Common.IsFDO = true then
        ((env.USBSTOR_FdoHandlePnp DeviceObject Irp s.mem).1,
          { mem := (env.USBSTOR_FdoHandlePnp DeviceObject Irp s.mem).2,
            trace := s.trace ++ [Event.USBSTOR_FdoHandlePnp DeviceObject Irp] })
       else
        ((env.USBSTOR_PdoHandlePnp DeviceObject Irp s.mem).1,
          { mem := (env.USBSTOR_PdoHandlePnp DeviceObject Irp s.mem).2,
            trace := s.trace ++ [Event.USBSTOR_PdoHandlePnp DeviceObject Irp] })) ∧
    ((USBSTOR_DispatchPnp env DeviceObject Irp s).2.since s).length = 1 ∧
    ((∃ d i, Event.USBSTOR_FdoHandlePnp d i ∈ (USBSTOR_DispatchPnp env DeviceObject Irp s).2.since s)
      ↔ (s.mem.ext (s.mem.dev DeviceObject).DeviceExtension).Common.IsFDO = true) ∧
    ((∃ d i, Event.USBSTOR_PdoHandlePnp d i ∈ (USBSTOR_DispatchPnp env DeviceObject Irp s).2.since s)
      ↔ (s.mem.ext (s.mem.dev DeviceObject).DeviceExtension).Common.IsFDO = false) ∧
    ((USBSTOR_DispatchPnp env DeviceObject Irp s).2.since s).countP
      Event.isIoCompleteRequest = 0 ∧
    ((USBSTOR_DispatchPnp env DeviceObject Irp s).2.since s).countP Event.isStore = 0 := by
  cases hFDO : (s.mem.ext (s.mem.dev DeviceObject).DeviceExtension).Common.IsFDO <;>
    simp [USBSTOR_DispatchPnp, USBSTOR_FdoHandlePnp, USBSTOR_PdoHandlePnp, callHandler,
      KState.since, Event.isIoCompleteRequest, Event.isStore, hFDO]

/-! ## Power -/

/-- C1: on a function node (`Common.IsFDO` true), for every request and
state, the effects of `USBSTOR_DispatchPower` are, in this order and nothing
else: one `PoStartNextPowerIrp(Irp)`, one `IoSkipCurrentIrpStackLocation(Irp)`,
one `PoCallDriver` on the node's `LowerDeviceObject` with the same request.
It makes no `IoCompleteRequest` call, returns the status `PoCallDriver`
returned and leaves memory as `PoCallDriver` left it. -/
theorem DispatchPower_function_node_forwards (env : Env) (DeviceObject Irp : Ptr)
    (s : KState)
    (hFDO : (s.mem.ext (s.mem.dev DeviceObject).DeviceExtension).Common.IsFDO = true) :
    (USBSTOR_DispatchPower env DeviceObject Irp s).1
      = (env.PoCallDriver (s.mem.ext (s.mem.dev DeviceObject).DeviceExtension).LowerDeviceObject
          Irp (s.mem.setIrp Irp (env.IoSkipCurrentIrpStackLocation (s.mem.irp Irp)))).1 ∧
    (USBSTOR_DispatchPower env DeviceObject Irp s).2.mem
      = (env.PoCallDriver (s.mem.ext (s.mem.dev DeviceObject).DeviceExtension).LowerDeviceObject
          Irp (s.mem.setIrp Irp (env.IoSkipCurrentIrpStackLocation (s.mem.irp Irp)))).2 ∧
    (USBSTOR_DispatchPower env DeviceObject Irp s).2.trace = s.trace ++
      [Event.PoStartNextPowerIrp Irp,
       Event.IoSkipCurrentIrpStackLocation Irp,
       Event.PoCallDriver (s.mem.ext (s.mem.dev DeviceObject).DeviceExtension).LowerDeviceObject
         Irp] ∧
    ((USBSTOR_DispatchPower env DeviceObject Irp s).2.since s).head?
      = some (Event.PoStartNextPowerIrp Irp) ∧
    ((USBSTOR_DispatchPower env DeviceObject Irp s).2.since s).countP
      Event.isPoStartNextPowerIrp = 1 ∧
    ((USBSTOR_DispatchPower env DeviceObject Irp s).2.since s).countP
      Event.isPoCallDriver = 1 ∧
    ((USBSTOR_DispatchPower env DeviceObject Irp s).2.since s).countP
      Event.isIoCompleteRequest = 0 := by
  simp [USBSTOR_DispatchPower, PoStartNextPowerIrp, IoSkipCurrentIrpStackLocation,
    PoCallDriver, callHandler, KState.log, KState.since, Mem.setIrp, hFDO,
    Event.isPoStartNextPowerIrp, Event.isPoCallDriver, Event.isIoCompleteRequest]

theorem DispatchPower_function_node_forwards_witness :
    ((sampleState true).mem.ext
        ((sampleState true).mem.dev 100).DeviceExtension).Common.IsFDO = true ∧
    (USBSTOR_DispatchPower sampleEnv 100 7 (sampleState true)).1 = STATUS_PENDING ∧
    (USBSTOR_DispatchPower sampleEnv 100 7 (sampleState true)).2.trace =
      [Event.PoStartNextPowerIrp 7, Event.IoSkipCurrentIrpStackLocation 7,
       Event.PoCallDriver 300 7] :=
  ⟨rfl, (DispatchPower_function_node_forwards sampleEnv 100 7 (sampleState true) rfl).1,
    (DispatchPower_function_node_forwards sampleEnv 100 7 (sampleState true) rfl).2.2.1⟩

/-- C2: on a child node (`Common.IsFDO` false), for every request and state,
the effects of `USBSTOR_DispatchPower` are, in this order and nothing else:
one `PoStartNextPowerIrp(Irp)`, the store of `STATUS_SUCCESS` to
`IoStatus.Status`, one `IoCompleteRequest(Irp, IO_NO_INCREMENT)`.  It makes
no `PoCallDriver` call, returns `STATUS_SUCCESS`, and status, effects and
resulting request are the same whatever the environment is and whatever the
extension holds in the place of `LowerDeviceObject`. -/
theorem DispatchPower_child_node_completes (env : Env) (DeviceObject Irp : Ptr)
    (s : KState)
    (hPDO : (s.mem.ext (s.mem.dev DeviceObject).DeviceExtension).Common.IsFDO = false) :
    (USBSTOR_DispatchPower env DeviceObject Irp s).1 = STATUS_SUCCESS ∧
    (USBSTOR_DispatchPower env DeviceObject Irp s).2.trace = s.trace ++
      [Event.PoStartNextPowerIrp Irp,
       Event.store (Loc.Irp_IoStatus_Status Irp) STATUS_SUCCESS,
       Event.IoCompleteRequest Irp IO_NO_INCREMENT] ∧
    ((USBSTOR_DispatchPower env DeviceObject Irp s).2.mem.irp Irp).IoStatus.Status
      = STATUS_SUCCESS ∧
    (USBSTOR_DispatchPower env DeviceObject Irp s).2.mem.completions Irp
      = s.mem.completions Irp + 1 ∧
    ((USBSTOR_DispatchPower env DeviceObject Irp s).2.since s).head?
      = some (Event.PoStartNextPowerIrp Irp) ∧
    ((USBSTOR_DispatchPower env DeviceObject Irp s).2.since s).countP
      Event.isPoStartNextPowerIrp = 1 ∧
    ((USBSTOR_DispatchPower env DeviceObject Irp s).2.since s).countP
      Event.isIoCompleteRequest = 1 ∧
    ((USBSTOR_DispatchPower env DeviceObject Irp s).2.since s).countP
      Event.isPoCallDriver = 0 ∧
    (∀ (env2 : Env) (L : Ptr),
      (USBSTOR_DispatchPower env2 DeviceObject Irp
          (s.withLowerDeviceObject (s.mem.dev DeviceObject).DeviceExtension L)).1
        = (USBSTOR_DispatchPower env DeviceObject Irp s).1 ∧
      (USBSTOR_DispatchPower env2 DeviceObject Irp
          (s.withLowerDeviceObject (s.mem.dev DeviceObject).DeviceExtension L)).2.trace
        = (USBSTOR_DispatchPower env DeviceObject Irp s).2.trace ∧
      (USBSTOR_DispatchPower env2 DeviceObject Irp
          (s.withLowerDeviceObject (s.mem.dev DeviceObject).DeviceExtension L)).2.mem.irp
        = (USBSTOR_DispatchPower env DeviceObject Irp s).2.mem.irp ∧
      (USBSTOR_DispatchPower env2 DeviceObject Irp
          (s.withLowerDeviceObject (s.mem.dev DeviceObject).DeviceExtension L)).2.mem.completions
        = (USBSTOR_DispatchPower env DeviceObject Irp s).2.mem.completions) := by
  simp [USBSTOR_DispatchPower, PoStartNextPowerIrp, IoCompleteRequest,
    store_Irp_IoStatus_Status, KState.log, KState.since, Mem.setIrp, Mem.setExt,
    Mem.setCompletions, KState.withLowerDeviceObject, hPDO, Event.isPoStartNextPowerIrp, Event.isPoCallDriver,
    Event.isIoCompleteRequest]

theorem DispatchPower_child_node_completes_witness :
    ((sampleState false).mem.ext
        ((sampleState false).mem.dev 100).DeviceExtension).Common.IsFDO = false ∧
    (USBSTOR_DispatchPower sampleEnv 100 7 (sampleState false)).1 = STATUS_SUCCESS ∧
    (USBSTOR_DispatchPower sampleEnv 100 7 (sampleState false)).2.trace =
      [Event.PoStartNextPowerIrp 7,
       Event.store (Loc.Irp_IoStatus_Status 7) STATUS_SUCCESS,
       Event.IoCompleteRequest 7 IO_NO_INCREMENT] :=
  ⟨rfl, (DispatchPower_child_node_completes sampleEnv 100 7 (sampleState false) rfl).1,
    (DispatchPower_child_node_completes sampleEnv 100 7 (sampleState false) rfl).2.1⟩

/-! ## Function-node creation -/

/-- C4: in every call of `USBSTOR_AddDevice` in which `IoCreateDevice`
succeeds and `IoAttachDeviceToDeviceStack` returns `NULL`, the call returns
`STATUS_DEVICE_REMOVED`; `IoDeleteDevice` is called exactly once, on the new
device object, as the last effect before the return; and no store to the
device flags is made: the flags of the object are as `IoCreateDevice` left
them. -/
theorem AddDevice_attach_failure_destroys_node (env : Env)
    (DriverObject PhysicalDeviceObject : Ptr) (s : KState)
    (Status : NTSTATUS) (DeviceObject : Ptr) (obj : DEVICE_OBJECT)
    (hcreate : env.IoCreateDevice DriverObject env.sizeof_FDO_DEVICE_EXTENSION 0
      FILE_DEVICE_BUS_EXTENDER (FILE_AUTOGENERATED_DEVICE_NAME ||| FILE_DEVICE_SECURE_OPEN)
      false = (Status, DeviceObject, obj))
    (hok : NT_SUCCESS Status = true)
    (hattach : env.IoAttachDeviceToDeviceStack DeviceObject PhysicalDeviceObject = 0) :
    (USBSTOR_AddDevice env DriverObject PhysicalDeviceObject s).1 = STATUS_DEVICE_REMOVED ∧
    (USBSTOR_AddDevice env DriverObject PhysicalDeviceObject s).2.trace = s.trace ++
      [Event.IoCreateDevice DriverObject env.sizeof_FDO_DEVICE_EXTENSION 0
         FILE_DEVICE_BUS_EXTENDER (FILE_AUTOGENERATED_DEVICE_NAME ||| FILE_DEVICE_SECURE_OPEN)
         false,
       Event.RtlZeroMemory obj.DeviceExtension env.sizeof_FDO_DEVICE_EXTENSION,
       Event.store (Loc.Ext_Common_IsFDO obj.DeviceExtension) 1,
       Event.store (Loc.Ext_FunctionalDeviceObject obj.DeviceExtension) DeviceObject,
       Event.store (Loc.Ext_PhysicalDeviceObject obj.DeviceExtension) PhysicalDeviceObject,
       Event.IoAttachDeviceToDeviceStack DeviceObject PhysicalDeviceObject,
       Event.store (Loc.Ext_LowerDeviceObject obj.DeviceExtension) 0,
       Event.IoInitializeTimer DeviceObject Routine.USBSTOR_TimerRoutine obj.DeviceExtension,
       Event.IoDeleteDevice DeviceObject] ∧
    ((USBSTOR_AddDevice env DriverObject PhysicalDeviceObject s).2.since s).getLast?
      = some (Event.IoDeleteDevice DeviceObject) ∧
    ((USBSTOR_AddDevice env DriverObject PhysicalDeviceObject s).2.since s).countP
      Event.isIoDeleteDevice = 1 ∧
    ((USBSTOR_AddDevice env DriverObject PhysicalDeviceObject s).2.since s).countP
      Event.isFlagsStore = 0 ∧
    ((USBSTOR_AddDevice env DriverObject PhysicalDeviceObject s).2.mem.dev DeviceObject).Flags
      = obj.Flags := by
  simp [USBSTOR_AddDevice, IoCreateDevice, hcreate, hok, hattach, RtlZeroMemory,
    store_Ext_Common_IsFDO, store_Ext_FunctionalDeviceObject, store_Ext_PhysicalDeviceObject,
    store_Ext_LowerDeviceObject, IoAttachDeviceToDeviceStack, IoInitializeTimer,
    IoDeleteDevice, KState.log, KState.since, Mem.setExt, Mem.setDev,
    Event.isIoDeleteDevice, Event.isFlagsStore]

theorem AddDevice_attach_failure_destroys_node_witness :
    NT_SUCCESS STATUS_SUCCESS = true ∧
    sampleEnvAttachFails.IoAttachDeviceToDeviceStack 100 50 = 0 ∧
    (USBSTOR_AddDevice sampleEnvAttachFails 1 50 (sampleState false)).1
      = STATUS_DEVICE_REMOVED ∧
    ((USBSTOR_AddDevice sampleEnvAttachFails 1 50 (sampleState false)).2.since
      (sampleState false)).countP Event.isIoDeleteDevice = 1 ∧
    ((USBSTOR_AddDevice sampleEnvAttachFails 1 50 (sampleState false)).2.mem.dev 100).Flags
      = DO_DEVICE_INITIALIZING :=
  ⟨rfl, rfl,
    (AddDevice_attach_failure_destroys_node sampleEnvAttachFails 1 50 (sampleState false)
      STATUS_SUCCESS 100 { Flags := DO_DEVICE_INITIALIZING, DeviceExtension := 200 }
      rfl rfl rfl).1,
    (AddDevice_attach_failure_destroys_node sampleEnvAttachFails 1 50 (sampleState false)
      STATUS_SUCCESS 100 { Flags := DO_DEVICE_INITIALIZING, DeviceExtension := 200 }
      rfl rfl rfl).2.2.2.1,
    (AddDevice_attach_failure_destroys_node sampleEnvAttachFails 1 50 (sampleState false)
      STATUS_SUCCESS 100 { Flags := DO_DEVICE_INITIALIZING, DeviceExtension := 200 }
      rfl rfl rfl).2.2.2.2.2⟩

/-- C5: in every call of `USBSTOR_AddDevice` in which `IoCreateDevice`
succeeds and `IoAttachDeviceToDeviceStack` returns a non-null device `L`,
the call returns `STATUS_SUCCESS`; the extension of the new device object has
`Common.IsFDO = TRUE`, `FunctionalDeviceObject` the new object,
`PhysicalDeviceObject` the physical device passed in, `LowerDeviceObject = L`
and is zero elsewhere; the flags of the new object are those
`IoCreateDevice` left, with `DO_BUFFERED_IO` and `DO_POWER_PAGABLE` set and
`DO_DEVICE_INITIALIZING` cleared; `IoDeleteDevice` is not called. -/
theorem AddDevice_attach_success_readies_node (env : Env)
    (DriverObject PhysicalDeviceObject : Ptr) (s : KState)
    (Status : NTSTATUS) (DeviceObject : Ptr) (obj : DEVICE_OBJECT) (L : Ptr)
    (hcreate : env.IoCreateDevice DriverObject env.sizeof_FDO_DEVICE_EXTENSION 0
      FILE_DEVICE_BUS_EXTENDER (FILE_AUTOGENERATED_DEVICE_NAME ||| FILE_DEVICE_SECURE_OPEN)
      false = (Status, DeviceObject, obj))
    (hok : NT_SUCCESS Status = true)
    (hattach : env.IoAttachDeviceToDeviceStack DeviceObject PhysicalDeviceObject = L)
    (hL : L ≠ 0) :
    (USBSTOR_AddDevice env DriverObject PhysicalDeviceObject s).1 = STATUS_SUCCESS ∧
    (USBSTOR_AddDevice env DriverObject PhysicalDeviceObject s).2.mem.ext obj.DeviceExtension
      = { Common := { IsFDO := true }, FunctionalDeviceObject := DeviceObject,
          PhysicalDeviceObject := PhysicalDeviceObject, LowerDeviceObject := L, Rest := 0 } ∧
    ((USBSTOR_AddDevice env DriverObject PhysicalDeviceObject s).2.mem.ext
      ((USBSTOR_AddDevice env DriverObject PhysicalDeviceObject s).2.mem.dev
        DeviceObject).DeviceExtension).LowerDeviceObject ≠ 0 ∧
    (USBSTOR_AddDevice env DriverObject PhysicalDeviceObject s).2.mem.dev DeviceObject
      = { Flags := (obj.Flags ||| ( DO_BUFFERED_IO ||| DO_POWER_PAGABLE))
            &&& (ULONG_MASK ^^^ DO_DEVICE_INITIALIZING),
          DeviceExtension := obj.DeviceExtension } ∧
    ((USBSTOR_AddDevice env DriverObject PhysicalDeviceObject s).2.mem.dev DeviceObject).Flags
      &&& DO_BUFFERED_IO = DO_BUFFERED_IO ∧
    ((USBSTOR_AddDevice env DriverObject PhysicalDeviceObject s).2.mem.dev DeviceObject).Flags
      &&& DO_POWER_PAGABLE = DO_POWER_PAGABLE ∧
    ((USBSTOR_AddDevice env DriverObject PhysicalDeviceObject s).2.mem.dev DeviceObject).Flags
      &&& DO_DEVICE_INITIALIZING = 0 ∧
    ((USBSTOR_AddDevice env DriverObject PhysicalDeviceObject s).2.since s).countP
      Event.isIoDeleteDevice = 0 := by
  have hmem : (USBSTOR_AddDevice env DriverObject PhysicalDeviceObject s).2.mem.dev DeviceObject
      = { Flags := (obj.Flags ||| ( DO_BUFFERED_IO ||| DO_POWER_PAGABLE))
            &&& (ULONG_MASK ^^^ DO_DEVICE_INITIALIZING),
          DeviceExtension := obj.DeviceExtension } := by
    simp [USBSTOR_AddDevice, IoCreateDevice, hcreate, hok, hattach, hL, RtlZeroMemory,
      store_Ext_Common_IsFDO, store_Ext_FunctionalDeviceObject,
      store_Ext_PhysicalDeviceObject, store_Ext_LowerDeviceObject,
      IoAttachDeviceToDeviceStack, IoInitializeTimer, store_DeviceObject_Flags,
      KState.log, Mem.setExt, Mem.setDev]
  have hext : (USBSTOR_AddDevice env DriverObject PhysicalDeviceObject s).2.mem.ext
      obj.DeviceExtension
      = { Common := { IsFDO := true }, FunctionalDeviceObject := DeviceObject,
          PhysicalDeviceObject := PhysicalDeviceObject, LowerDeviceObject := L, Rest := 0 } := by
    simp [USBSTOR_AddDevice, IoCreateDevice, hcreate, hok, hattach, hL, RtlZeroMemory,
      store_Ext_Common_IsFDO, store_Ext_FunctionalDeviceObject,
      store_Ext_PhysicalDeviceObject, store_Ext_LowerDeviceObject,
      IoAttachDeviceToDeviceStack, IoInitializeTimer, store_DeviceObject_Flags,
      KState.log, Mem.setExt, Mem.setDev, FDO_DEVICE_EXTENSION.zero]
  refine ⟨?_, hext, ?_, hmem, ?_, ?_, ?_, ?_⟩
  · simp [USBSTOR_AddDevice, IoCreateDevice, hcreate, hok, hattach, hL, RtlZeroMemory,
      store_Ext_Common_IsFDO, store_Ext_FunctionalDeviceObject,
      store_Ext_PhysicalDeviceObject, store_Ext_LowerDeviceObject,
      IoAttachDeviceToDeviceStack, IoInitializeTimer, store_DeviceObject_Flags,
      KState.log, Mem.setExt, Mem.setDev]
  · rw [hmem]
    simp only []
    rw [hext]
    exact hL
  · rw [hmem]; exact (ready_flags obj.Flags).1
  · rw [hmem]; exact (ready_flags obj.Flags).2.1
  · rw [hmem]; exact (ready_flags obj.Flags).2.2
  · simp [USBSTOR_AddDevice, IoCreateDevice, hcreate, hok, hattach, hL, RtlZeroMemory,
      store_Ext_Common_IsFDO, store_Ext_FunctionalDeviceObject,
      store_Ext_PhysicalDeviceObject, store_Ext_LowerDeviceObject,
      IoAttachDeviceToDeviceStack, IoInitializeTimer, store_DeviceObject_Flags,
      KState.log, KState.since, Mem.setExt, Mem.setDev, Event.isIoDeleteDevice]

theorem AddDevice_attach_success_readies_node_witness :
    NT_SUCCESS STATUS_SUCCESS = true ∧
    sampleEnv.IoAttachDeviceToDeviceStack 100 50 = 50 ∧
    (50 : Ptr) ≠ 0 ∧
    (USBSTOR_AddDevice sampleEnv 1 50 (sampleState false)).1 = STATUS_SUCCESS ∧
    (USBSTOR_AddDevice sampleEnv 1 50 (sampleState false)).2.mem.ext 200
      = { Common := { IsFDO := true }, FunctionalDeviceObject := 100,
          PhysicalDeviceObject := 50, LowerDeviceObject := 50, Rest := 0 } ∧
    ((USBSTOR_AddDevice sampleEnv 1 50 (sampleState false)).2.mem.dev 100).Flags
      &&& DO_DEVICE_INITIALIZING = 0 :=
  ⟨rfl, rfl, by decide,
    (AddDevice_attach_success_readies_node sampleEnv 1 50 (sampleState false)
      STATUS_SUCCESS 100 { Flags := DO_DEVICE_INITIALIZING, DeviceExtension := 200 } 50
      rfl rfl rfl (by decide)).1,
    (AddDevice_attach_success_readies_node sampleEnv 1 50 (sampleState false)
      STATUS_SUCCESS 100 { Flags := DO_DEVICE_INITIALIZING, DeviceExtension := 200 } 50
      rfl rfl rfl (by decide)).2.1,
    (AddDevice_attach_success_readies_node sampleEnv 1 50 (sampleState false)
      STATUS_SUCCESS 100 { Flags := DO_DEVICE_INITIALIZING, DeviceExtension := 200 } 50
      rfl rfl rfl (by decide)).2.2.2.2.2.2.1⟩

/-- C6 as the code has it: in every call of `USBSTOR_AddDevice` in which
`IoCreateDevice` succeeds, whether attaching succeeds or not, exactly one
`IoInitializeTimer` call is made, bound to the new device object,
`USBSTOR_TimerRoutine` and the extension; it comes right after the attach
attempt and the store of its result, and when attaching returned `NULL` the
next effect is the `IoDeleteDevice` call that destroys the node. -/
theorem AddDevice_initializes_timer_after_create (env : Env)
    (DriverObject PhysicalDeviceObject : Ptr) (s : KState)
    (Status : NTSTATUS) (DeviceObject : Ptr) (obj : DEVICE_OBJECT) (L : Ptr)
    (hcreate : env.IoCreateDevice DriverObject env.sizeof_FDO_DEVICE_EXTENSION 0
      FILE_DEVICE_BUS_EXTENDER (FILE_AUTOGENERATED_DEVICE_NAME ||| FILE_DEVICE_SECURE_OPEN)
      false = (Status, DeviceObject, obj))
    (hok : NT_SUCCESS Status = true)
    (hattach : env.IoAttachDeviceToDeviceStack DeviceObject PhysicalDeviceObject = L) :
    ((USBSTOR_AddDevice env DriverObject PhysicalDeviceObject s).2.since s).countP
      Event.isIoInitializeTimer = 1 ∧
    ((USBSTOR_AddDevice env DriverObject PhysicalDeviceObject s).2.since s).take 8 =
      [Event.IoCreateDevice DriverObject env.sizeof_FDO_DEVICE_EXTENSION 0
         FILE_DEVICE_BUS_EXTENDER (FILE_AUTOGENERATED_DEVICE_NAME ||| FILE_DEVICE_SECURE_OPEN)
         false,
       Event.RtlZeroMemory obj.DeviceExtension env.sizeof_FDO_DEVICE_EXTENSION,
       Event.store (Loc.Ext_Common_IsFDO obj.DeviceExtension) 1,
       Event.store (Loc.Ext_FunctionalDeviceObject obj.DeviceExtension) DeviceObject,
       Event.store (Loc.Ext_PhysicalDeviceObject obj.DeviceExtension) PhysicalDeviceObject,
       Event.IoAttachDeviceToDeviceStack DeviceObject PhysicalDeviceObject,
       Event.store (Loc.Ext_LowerDeviceObject obj.DeviceExtension) L,
       Event.IoInitializeTimer DeviceObject Routine.USBSTOR_TimerRoutine obj.DeviceExtension] ∧
    ((USBSTOR_AddDevice env DriverObject PhysicalDeviceObject s).2.since s).drop 8 =
      (if L = 0 then
        [Event.IoDeleteDevice DeviceObject]
       else
        [Event.store (Loc.DeviceObject_Flags DeviceObject)
           ((obj.Flags ||| ( DO_BUFFERED_IO ||| DO_POWER_PAGABLE) : Nat) : Int),
         Event.store (Loc.DeviceObject_Flags DeviceObject)
           (((obj.Flags ||| ( DO_BUFFERED_IO ||| DO_POWER_PAGABLE))
              &&& (ULONG_MASK ^^^ DO_DEVICE_INITIALIZING) : Nat) : Int)]) := by
  by_cases hL : L = 0
  · simp [USBSTOR_AddDevice, IoCreateDevice, hcreate, hok, hattach, hL, RtlZeroMemory,
      store_Ext_Common_IsFDO, store_Ext_FunctionalDeviceObject,
      store_Ext_PhysicalDeviceObject, store_Ext_LowerDeviceObject,
      IoAttachDeviceToDeviceStack, IoInitializeTimer, IoDeleteDevice,
      KState.log, KState.since, Mem.setExt, Mem.setDev, Event.isIoInitializeTimer]
  · simp [USBSTOR_AddDevice, IoCreateDevice, hcreate, hok, hattach, hL, RtlZeroMemory,
      store_Ext_Common_IsFDO, store_Ext_FunctionalDeviceObject,
      store_Ext_PhysicalDeviceObject, store_Ext_LowerDeviceObject,
      IoAttachDeviceToDeviceStack, IoInitializeTimer, store_DeviceObject_Flags,
      KState.log, KState.since, Mem.setExt, Mem.setDev, Event.isIoInitializeTimer]

theorem AddDevice_initializes_timer_after_create_witness :
    NT_SUCCESS STATUS_SUCCESS = true ∧
    sampleEnv.IoAttachDeviceToDeviceStack 100 50 = 50 ∧
    ((USBSTOR_AddDevice sampleEnv 1 50 (sampleState false)).2.since
      (sampleState false)).countP Event.isIoInitializeTimer = 1 :=
  ⟨rfl, rfl,
    (AddDevice_initializes_timer_after_create sampleEnv 1 50 (sampleState false)
      STATUS_SUCCESS 100 { Flags := DO_DEVICE_INITIALIZING, DeviceExtension := 200 } 50
      rfl rfl rfl).1⟩

/-- C6 as stated fails: here `IoCreateDevice` succeeds and
`IoAttachDeviceToDeviceStack` returns `NULL`, yet `USBSTOR_AddDevice` makes
one `IoInitializeTimer` call for the new node, right before the
`IoDeleteDevice` call that destroys it. -/
theorem AddDevice_timer_on_attach_failure :
    NT_SUCCESS (sampleEnvAttachFails.IoCreateDevice 1
      sampleEnvAttachFails.sizeof_FDO_DEVICE_EXTENSION 0 FILE_DEVICE_BUS_EXTENDER
      (FILE_AUTOGENERATED_DEVICE_NAME ||| FILE_DEVICE_SECURE_OPEN) false).1 = true ∧
    sampleEnvAttachFails.IoAttachDeviceToDeviceStack 100 50 = 0 ∧
    (USBSTOR_AddDevice sampleEnvAttachFails 1 50 (sampleState false)).1
      = STATUS_DEVICE_REMOVED ∧
    ((USBSTOR_AddDevice sampleEnvAttachFails 1 50 (sampleState false)).2.since
      (sampleState false)).countP Event.isIoInitializeTimer = 1 ∧
    ((USBSTOR_AddDevice sampleEnvAttachFails 1 50 (sampleState false)).2.since
      (sampleState false)).drop 7 =
      [Event.IoInitializeTimer 100 Routine.USBSTOR_TimerRoutine 200,
       Event.IoDeleteDevice 100] := by
  decide

end Usbstor
